import Mathlib

/-!
Shallow embedding of `src/prd_to_adsb.py` (the PRD → ADS-B converter core):
the dynamic-attribute object model used by `PRDMessage` and `ADSBMessage`,
the shared `init_objects` initializer, the icon-resolution logic, the
`from_bytes` decoder stub and `convert_prd_to_adsb`.

Modelling conventions:
- A Python object is a pair of association lists: its instance `__dict__`
  (insertion-ordered, unique keys) and its class attributes.  `getattr`,
  `setattr` and `hasattr` follow Python's rule: instance dict first, then
  class attributes.
- Attribute values are strings, numbers (Python floats carried exactly as
  rationals; the program performs no arithmetic on them, it only copies and
  compares), or opaque function-valued attributes (methods).
- Fallible Python code (AttributeError on a missing attribute or on calling
  `.upper()` on a non-string, KeyError on dict indexing) is embedded as
  `Except PyErr`.
- `str.upper` is modelled for ASCII, which covers every string the program
  and its configuration use.
- The module-level icon table `callsign_icons` (loaded once at import; empty
  when the YAML file is missing) is threaded as an explicit parameter.
-/

namespace PrdAdsb

/-- A Python attribute value: a string, a number (float carried exactly),
or an opaque function-valued attribute (a method). -/
inductive Value where
  | str (s : String)
  | num (q : Rat)
  | meth (name : String)
deriving DecidableEq

/-- An insertion-ordered attribute map with unique keys (a Python dict
whose keys are identifiers). -/
abbrev Bindings := List (String × Value)

/-- The `callsign_icons` mapping: uppercased callsign (or type) → icon path. -/
abbrev IconTable := List (String × String)

/-- The Python exceptions this core can raise. -/
inductive PyErr where
  | attributeError
  | keyError
deriving DecidableEq

/-- First-match association-list lookup (Python dict lookup; keys unique). -/
def alistLookup {α : Type} (k : String) : List (String × α) → Option α
  | [] => none
  | (k2, v) :: m => if k2 = k then some v else alistLookup k m

/-- Update key `k` in place if present, else append (Python dict assignment). -/
def setB {α : Type} : List (String × α) → String → α → List (String × α)
  | [], k, v => [(k, v)]
  | (k2, v2) :: m, k, v => if k2 = k then (k2, v) :: m else (k2, v2) :: setB m k v

/-- Remove key `k` (Python `dict.pop(k, None)`; keys are unique in any
dict-derived map, so removing every occurrence agrees with Python). -/
def popB {α : Type} : List (String × α) → String → List (String × α)
  | [], _ => []
  | (k2, v2) :: m, k => if k2 = k then popB m k else (k2, v2) :: popB m k

/-- A Python object: its instance `__dict__` plus its class attributes. -/
structure Obj where
  dict : Bindings
  cls : Bindings
deriving DecidableEq

/-- Python `getattr`: instance dict first, then class attributes. -/
def getattr (o : Obj) (k : String) : Option Value :=
  match alistLookup k o.dict with
  | some v => some v
  | none => alistLookup k o.cls

/-- Python `hasattr`. -/
def hasattr (o : Obj) (k : String) : Bool :=
  (getattr o k).isSome

/-- Python `setattr`: always writes the instance dict. -/
def setattr (o : Obj) (k : String) (v : Value) : Obj :=
  { o with dict := setB o.dict k v }

/-- Attribute access that raises `AttributeError` when absent. -/
def attr (o : Obj) (k : String) : Except PyErr Value :=
  match getattr o k with
  | some v => Except.ok v
  | none => Except.error PyErr.attributeError

/-- ASCII uppercase of one character (Python `str.upper`, ASCII fragment). -/
def upChar (c : Char) : Char :=
  if 'a' ≤ c ∧ c ≤ 'z' then Char.ofNat (c.toNat - 32) else c

/-- Python `str.upper` (ASCII fragment; all strings in this program are ASCII). -/
def pyUpper (s : String) : String := ⟨s.data.map upChar⟩

/-- Python `v.upper()`: succeeds only on strings, else `AttributeError`. -/
def valUpper : Value → Except PyErr String
  | .str s => .ok (pyUpper s)
  | _ => .error .attributeError

/-- `DEFAULT_UNKNOWN_AIRCRAFT_ICON` from `src/prd_to_adsb.py` line 20. -/
def DEFAULT_UNKNOWN_AIRCRAFT_ICON : String := "assets/icons/circle.svg"

/-- `callsign_icons.get(key)` for an arbitrary attribute value used as key:
only a string key can hit the string-keyed table. -/
def dictGetOpt (icons : IconTable) (k : Value) : Option String :=
  match k with
  | .str s => alistLookup s icons
  | _ => none

/-- `callsign_icons.get(key, d)`. -/
def dictGetDefault (icons : IconTable) (k : Value) (d : String) : String :=
  (dictGetOpt icons k).getD d

/-- The `prd_fields` list from `init_objects` (line 31). -/
def prd_fields : List String :=
  ["callsign", "type", "latitude", "longitude", "altitude", "speed", "heading"]

/-- The per-field default from `init_objects` lines 34-40. -/
def fieldDefault (f : String) : Value :=
  if f = "callsign" then .str "ABC123"
  else if f = "type" then .str "Unknown"
  else .num 0

/-- The defaults loop of `init_objects` (lines 34-41): for each field in
order, set it to the kwargs value or the default, and pop it from kwargs. -/
def setDefaults : Obj → Bindings → List String → Obj × Bindings
  | o, kw, [] => (o, kw)
  | o, kw, f :: fs =>
      setDefaults (setattr o f ((alistLookup f kw).getD (fieldDefault f))) (popB kw f) fs

/-- The extras loop of `init_objects` (lines 43-45): attach each remaining
kwarg only when no attribute of that name is already present. -/
def setExtras : Obj → Bindings → Obj
  | o, [] => o
  | o, (k, v) :: kw => setExtras (if hasattr o k then o else setattr o k v) kw

/-- The icon assignment of `init_objects` (lines 47-50):
`obj.icon = callsign_icons.get(obj.callsign.upper(), callsign_icons.get(obj.type, DEFAULT))`.
Accessing a missing attribute or calling `.upper()` on a non-string raises. -/
def resolveIcon (icons : IconTable) (o : Obj) : Except PyErr Obj :=
  match attr o "callsign" with
  | .error e => .error e
  | .ok cv =>
    match valUpper cv with
    | .error e => .error e
    | .ok cu =>
      match attr o "type" with
      | .error e => .error e
      | .ok tv =>
        .ok (setattr o "icon"
          (.str ((alistLookup cu icons).getD
            (dictGetDefault icons tv DEFAULT_UNKNOWN_AIRCRAFT_ICON))))

/-- `init_objects(obj, kwargs)` (lines 23-50). -/
def init_objects (icons : IconTable) (o : Obj) (kwargs : Bindings) : Except PyErr Obj :=
  let p := setDefaults o kwargs prd_fields
  resolveIcon icons (setExtras p.1 p.2)

/-- Class attributes of `PRDMessage` (lines 194-201 plus its methods). -/
def prdClassAttrs : Bindings :=
  [("callsign", .str ""), ("type", .str ""), ("latitude", .num 0),
   ("longitude", .num 0), ("altitude", .num 0), ("speed", .num 0),
   ("heading", .num 0), ("icon", .str ""),
   ("__init__", .meth "PRDMessage.__init__"),
   ("to_dict", .meth "PRDMessage.to_dict"),
   ("from_bytes", .meth "PRDMessage.from_bytes")]

/-- Class attributes of `ADSBMessage` (lines 152-160 plus its methods).
Note the class-level `tail_number = ""` (line 160). -/
def adsbClassAttrs : Bindings :=
  [("callsign", .str ""), ("type", .str ""), ("latitude", .num 0),
   ("longitude", .num 0), ("altitude", .num 0), ("speed", .num 0),
   ("heading", .num 0), ("icon", .str ""), ("tail_number", .str ""),
   ("__init__", .meth "ADSBMessage.__init__"),
   ("__str__", .meth "ADSBMessage.__str__"),
   ("__repr__", .meth "ADSBMessage.__repr__"),
   ("__iter__", .meth "ADSBMessage.__iter__")]

/-- A freshly allocated `PRDMessage` before `__init__` runs. -/
def prdNew : Obj := { dict := [], cls := prdClassAttrs }

/-- A freshly allocated `ADSBMessage` before `__init__` runs. -/
def adsbNew : Obj := { dict := [], cls := adsbClassAttrs }

/-- Boolean membership in a list of strings. -/
def memStr (k : String) : List String → Bool
  | [] => false
  | s :: ss => if s = k then true else memStr k ss

/-- The attribute names of a CPython `dict` object (what
`hasattr(callsign_icons, name)` can ever find): methods and dunders.
Every one of them contains a lowercase ASCII letter. -/
def dictAttrNames : List String :=
  ["__class__", "__contains__", "__delattr__", "__delitem__", "__dir__",
   "__doc__", "__eq__", "__format__", "__ge__", "__getattribute__",
   "__getitem__", "__gt__", "__hash__", "__init__", "__init_subclass__",
   "__iter__", "__le__", "__len__", "__lt__", "__ne__", "__new__",
   "__or__", "__reduce__", "__reduce_ex__", "__repr__", "__reversed__",
   "__ror__", "__setattr__", "__setitem__", "__sizeof__", "__str__",
   "__subclasshook__", "clear", "copy", "fromkeys", "get", "items",
   "keys", "pop", "popitem", "setdefault", "update", "values"]

/-- Lines 165-168 of `ADSBMessage.__init__`:
`if not hasattr(self, 'tail_number'): self.tail_number = "N/A"` followed by
`if hasattr(callsign_icons, self.tail_number.upper()): self.icon = callsign_icons[...]`.
`hasattr` on the dict object checks the dict's own attributes, not its keys. -/
def tailUpdate (icons : IconTable) (o : Obj) : Except PyErr Obj :=
  let o1 := if hasattr o "tail_number" then o else setattr o "tail_number" (.str "N/A")
  match attr o1 "tail_number" with
  | .error e => .error e
  | .ok tv =>
    match valUpper tv with
    | .error e => .error e
    | .ok tu =>
      if memStr tu dictAttrNames then
        match alistLookup tu icons with
        | some l => .ok (setattr o1 "icon" (.str l))
        | none => .error .keyError
      else .ok o1

/-- `ADSBMessage.__init__` (lines 162-168). -/
def ADSBMessage_init (icons : IconTable) (kwargs : Bindings) : Except PyErr Obj :=
  match init_objects icons adsbNew kwargs with
  | .error e => .error e
  | .ok o => tailUpdate icons o

/-- `PRDMessage.__init__` (lines 203-205). -/
def PRDMessage_init (icons : IconTable) (kwargs : Bindings) : Except PyErr Obj :=
  init_objects icons prdNew kwargs

/-- `PRDMessage.to_dict` (lines 207-223): reads the eight named attributes. -/
def PRDMessage_to_dict (o : Obj) : Except PyErr Bindings :=
  match attr o "callsign", attr o "type", attr o "latitude", attr o "longitude",
        attr o "altitude", attr o "speed", attr o "heading", attr o "icon" with
  | .ok cs, .ok ty, .ok la, .ok lo, .ok al, .ok sp, .ok he, .ok ic =>
      .ok [("callsign", cs), ("type", ty), ("latitude", la), ("longitude", lo),
           ("altitude", al), ("speed", sp), ("heading", he), ("icon", ic)]
  | _, _, _, _, _, _, _, _ => .error PyErr.attributeError

/-- `PRDMessage.from_bytes` (lines 225-228): ignores `data` and returns
`PRDMessage()`. -/
def PRDMessage_from_bytes (icons : IconTable) (_data : List Nat) : Except PyErr Obj :=
  PRDMessage_init icons []

/-- `convert_prd_to_adsb` (lines 231-241): `ADSBMessage(**prd_message.to_dict())`. -/
def convert_prd_to_adsb (icons : IconTable) (prd : Obj) : Except PyErr Obj :=
  match PRDMessage_to_dict prd with
  | .error e => .error e
  | .ok d => ADSBMessage_init icons d

deriving instance DecidableEq for Except

/-- Attribute of the object inside a computation result, when it succeeded. -/
def attrOf (k : String) (r : Except PyErr Obj) : Option Value :=
  match r with
  | .ok o => getattr o k
  | .error _ => none

/-- `Except.isOk` specialised to this core. -/
def isOkB : Except PyErr Obj → Bool
  | .ok _ => true
  | .error _ => false

/-- The full receive-path composition used by `app.py`:
`PRDMessage(**kwargs)` (standing for a decoded message) then
`convert_prd_to_adsb`. -/
def run_pipeline (icons : IconTable) (kwargs : Bindings) : Except PyErr Obj :=
  match PRDMessage_init icons kwargs with
  | .error e => .error e
  | .ok prd => convert_prd_to_adsb icons prd

/-- The `PRDMessage` produced by `PRDMessage()` with an empty icon table. -/
def prdDefaultObj : Obj :=
  { dict := [("callsign", .str "ABC123"), ("type", .str "Unknown"),
             ("latitude", .num 0), ("longitude", .num 0), ("altitude", .num 0),
             ("speed", .num 0), ("heading", .num 0),
             ("icon", .str DEFAULT_UNKNOWN_AIRCRAFT_ICON)],
    cls := prdClassAttrs }

/-- The `ADSBMessage` produced by converting `prdDefaultObj` with an empty
icon table. -/
def adsbDefaultObj : Obj :=
  { dict := [("callsign", .str "ABC123"), ("type", .str "Unknown"),
             ("latitude", .num 0), ("longitude", .num 0), ("altitude", .num 0),
             ("speed", .num 0), ("heading", .num 0),
             ("icon", .str DEFAULT_UNKNOWN_AIRCRAFT_ICON)],
    cls := adsbClassAttrs }

/-- Icon table with an entry for the default callsign `"ABC123"`. -/
def c3table : IconTable := [("ABC123", "icons/abc.svg")]

/-- `PRDMessage()` under `c3table`: the callsign lookup hits. -/
def c3prdObj : Obj :=
  { dict := [("callsign", .str "ABC123"), ("type", .str "Unknown"),
             ("latitude", .num 0), ("longitude", .num 0), ("altitude", .num 0),
             ("speed", .num 0), ("heading", .num 0), ("icon", .str "icons/abc.svg")],
    cls := prdClassAttrs }

/-- The conversion of `c3prdObj` under `c3table`. -/
def c3adsbObj : Obj :=
  { dict := [("callsign", .str "ABC123"), ("type", .str "Unknown"),
             ("latitude", .num 0), ("longitude", .num 0), ("altitude", .num 0),
             ("speed", .num 0), ("heading", .num 0), ("icon", .str "icons/abc.svg")],
    cls := adsbClassAttrs }

/-- Icon table with an entry for the tail number `"N12345"`. -/
def c4table : IconTable := [("N12345", "icons/tail.svg")]

/-- A decoded message carrying a tail number as an extension field. -/
def c4kwargs : Bindings := [("tail_number", .str "N12345")]

/-- The spec's concrete-scenario icon table (`{"UAL123": "icons/ual.svg"}`). -/
def c5table : IconTable := [("UAL123", "icons/ual.svg")]

/-- The spec's concrete-scenario position report (no tail number supplied). -/
def c5kwargs : Bindings :=
  [("callsign", .str "UAL123"), ("type", .str "B738"), ("latitude", .num 40),
   ("longitude", .num (-75)), ("altitude", .num 35000), ("speed", .num 450),
   ("heading", .num 270)]

/-- `PRDMessage(callsign="X")` with an empty icon table. -/
def c8prdObj : Obj :=
  { dict := [("callsign", .str "X"), ("type", .str "Unknown"),
             ("latitude", .num 0), ("longitude", .num 0), ("altitude", .num 0),
             ("speed", .num 0), ("heading", .num 0),
             ("icon", .str DEFAULT_UNKNOWN_AIRCRAFT_ICON)],
    cls := prdClassAttrs }

/-! ### Association-list and object lemmas -/

theorem alistLookup_setB_same {α : Type} (m : List (String × α)) (k : String) (v : α) :
    alistLookup k (setB m k v) = some v := by
  induction m with
  | nil => simp [setB, alistLookup]
  | cons p m ih =>
    obtain ⟨k2, v2⟩ := p
    by_cases h : k2 = k
    · subst h; simp [setB, alistLookup]
    · simp [setB, alistLookup, h, ih]

theorem alistLookup_setB_ne {α : Type} (m : List (String × α)) (j k : String) (v : α)
    (h : j ≠ k) : alistLookup j (setB m k v) = alistLookup j m := by
  induction m with
  | nil =>
    simp only [setB, alistLookup]
    rw [if_neg (fun hh : k = j => h hh.symm)]
  | cons p m ih =>
    obtain ⟨k2, v2⟩ := p
    by_cases h2 : k2 = k
    · have hne : ¬ k2 = j := fun hh => h (hh.symm.trans h2)
      simp only [setB, if_pos h2, alistLookup]
      rw [if_neg hne, if_neg hne]
    · simp only [setB, if_neg h2, alistLookup]
      by_cases hj : k2 = j
      · rw [if_pos hj, if_pos hj]
      · rw [if_neg hj, if_neg hj, ih]

theorem alistLookup_popB {α : Type} (m : List (String × α)) (j k : String) :
    alistLookup j (popB m k) = if j = k then none else alistLookup j m := by
  induction m with
  | nil => by_cases h : j = k <;> simp [popB, alistLookup, h]
  | cons p m ih =>
    obtain ⟨k2, v2⟩ := p
    by_cases h2 : k2 = k
    · simp only [popB, if_pos h2, ih, alistLookup]
      by_cases hj : j = k
      · rw [if_pos hj, if_pos hj]
      · have hne : ¬ k2 = j := fun hh => hj (hh.symm.trans h2)
        rw [if_neg hj, if_neg hj, if_neg hne]
    · simp only [popB, if_neg h2, alistLookup]
      by_cases hj : k2 = j
      · have hjk : ¬ j = k := fun hh => h2 (hj.trans hh)
        rw [if_pos hj, if_neg hjk, if_pos hj]
      · rw [if_neg hj, ih]
        by_cases hjk : j = k
        · rw [if_pos hjk, if_pos hjk]
        · rw [if_neg hjk, if_neg hjk, if_neg hj]

theorem getattr_setattr_same (o : Obj) (k : String) (v : Value) :
    getattr (setattr o k v) k = some v := by
  simp [getattr, setattr, alistLookup_setB_same]

theorem getattr_setattr_ne (o : Obj) (j k : String) (v : Value) (h : j ≠ k) :
    getattr (setattr o k v) j = getattr o j := by
  simp only [getattr, setattr]
  rw [alistLookup_setB_ne _ _ _ _ h]

theorem inst_setattr_same (o : Obj) (k : String) (v : Value) :
    alistLookup k (setattr o k v).dict = some v := by
  simp [setattr, alistLookup_setB_same]

theorem inst_setattr_ne (o : Obj) (j k : String) (v : Value) (h : j ≠ k) :
    alistLookup j (setattr o k v).dict = alistLookup j o.dict := by
  simp only [setattr]
  exact alistLookup_setB_ne _ _ _ _ h

theorem getattr_of_inst (o : Obj) (k : String) (v : Value)
    (h : alistLookup k o.dict = some v) : getattr o k = some v := by
  simp [getattr, h]

theorem setattr_cls (o : Obj) (k : String) (v : Value) : (setattr o k v).cls = o.cls := rfl

theorem hasattr_setattr_ne (o : Obj) (j k : String) (v : Value) (h : j ≠ k) :
    hasattr (setattr o k v) j = hasattr o j := by
  simp [hasattr, getattr_setattr_ne _ _ _ _ h]

theorem hasattr_of_getattr (o : Obj) (j : String) (v : Value)
    (h : getattr o j = some v) : hasattr o j = true := by
  simp [hasattr, h]

/-! ### The defaults loop -/

theorem setDefaults_cls (fs : List String) (o : Obj) (kw : Bindings) :
    (setDefaults o kw fs).1.cls = o.cls := by
  induction fs generalizing o kw with
  | nil => rfl
  | cons f fs ih => simpa [setDefaults, setattr_cls] using ih (setattr o f _) (popB kw f)

theorem setDefaults_inst_notmem (fs : List String) (o : Obj) (kw : Bindings) (j : String)
    (h : j ∉ fs) : alistLookup j (setDefaults o kw fs).1.dict = alistLookup j o.dict := by
  induction fs generalizing o kw with
  | nil => rfl
  | cons f fs ih =>
    have hj : j ≠ f := fun he => h (he ▸ List.mem_cons_self f fs)
    have hrest : j ∉ fs := fun hm => h (List.mem_cons_of_mem f hm)
    simp only [setDefaults]
    rw [ih _ _ hrest, inst_setattr_ne _ _ _ _ hj]

theorem setDefaults_inst_mem (fs : List String) (o : Obj) (kw : Bindings) (f : String)
    (hmem : f ∈ fs) (hnd : fs.Nodup) :
    alistLookup f (setDefaults o kw fs).1.dict =
      some ((alistLookup f kw).getD (fieldDefault f)) := by
  induction fs generalizing o kw with
  | nil => cases hmem
  | cons g fs ih =>
    obtain ⟨hnotin, hnd2⟩ := List.nodup_cons.mp hnd
    rcases List.mem_cons.mp hmem with rfl | hmem2
    · simp only [setDefaults]
      rw [setDefaults_inst_notmem fs _ _ _ hnotin, inst_setattr_same]
    · have hg : f ≠ g := fun he => hnotin (he ▸ hmem2)
      simp only [setDefaults]
      rw [ih _ _ hmem2 hnd2, alistLookup_popB]
      simp [hg]

/-! ### The extras loop -/

theorem setExtras_cls (kw : Bindings) (o : Obj) : (setExtras o kw).cls = o.cls := by
  induction kw generalizing o with
  | nil => rfl
  | cons p kw ih =>
    obtain ⟨k, w⟩ := p
    simp only [setExtras]
    by_cases hk : hasattr o k = true
    · rw [if_pos hk]; exact ih o
    · rw [if_neg hk]
      rw [ih (setattr o k w), setattr_cls]

theorem setExtras_getattr_pres (kw : Bindings) (o : Obj) (j : String) (v : Value)
    (h : getattr o j = some v) : getattr (setExtras o kw) j = some v := by
  induction kw generalizing o with
  | nil => exact h
  | cons p kw ih =>
    obtain ⟨k, w⟩ := p
    simp only [setExtras]
    by_cases hk : hasattr o k = true
    · rw [if_pos hk]; exact ih o h
    · rw [if_neg hk]
      have hj : j ≠ k := fun he => hk (he ▸ hasattr_of_getattr o j v h)
      exact ih _ (by rw [getattr_setattr_ne _ _ _ _ hj]; exact h)

theorem setExtras_inst_pres (kw : Bindings) (o : Obj) (j : String) (v : Value)
    (h : alistLookup j o.dict = some v) :
    alistLookup j (setExtras o kw).dict = some v := by
  induction kw generalizing o with
  | nil => exact h
  | cons p kw ih =>
    obtain ⟨k, w⟩ := p
    simp only [setExtras]
    by_cases hk : hasattr o k = true
    · rw [if_pos hk]; exact ih o h
    · rw [if_neg hk]
      have hj : j ≠ k := by
        rintro rfl
        exact hk (hasattr_of_getattr o j _ (getattr_of_inst o j v h))
      exact ih _ (by rw [inst_setattr_ne _ _ _ _ hj]; exact h)

theorem setExtras_untouched (kw : Bindings) (o : Obj) (j : String)
    (h : ∀ p ∈ kw, p.1 ≠ j) : getattr (setExtras o kw) j = getattr o j := by
  induction kw generalizing o with
  | nil => rfl
  | cons p kw ih =>
    obtain ⟨k, w⟩ := p
    have hkj : k ≠ j := h (k, w) (List.mem_cons_self _ _)
    have hrest : ∀ p ∈ kw, p.1 ≠ j := fun p hp => h p (List.mem_cons_of_mem _ hp)
    simp only [setExtras]
    by_cases hk : hasattr o k = true
    · rw [if_pos hk]; exact ih o hrest
    · rw [if_neg hk]
      rw [ih _ hrest, getattr_setattr_ne _ _ _ _ (fun he => hkj he.symm)]

/-! ### Constructor characterizations -/

theorem fieldDefault_callsign : fieldDefault "callsign" = .str "ABC123" := by decide

theorem fieldDefault_type : fieldDefault "type" = .str "Unknown" := by decide

theorem fieldDefault_num (f : String) (h1 : f ≠ "callsign") (h2 : f ≠ "type") :
    fieldDefault f = .num 0 := by
  simp [fieldDefault, h1, h2]

theorem prd_fields_nodup : prd_fields.Nodup := by decide

theorem resolveIcon_eq (icons : IconTable) (o : Obj) (cs : String) (tv : Value)
    (hc : getattr o "callsign" = some (.str cs)) (ht : getattr o "type" = some tv) :
    resolveIcon icons o = .ok (setattr o "icon"
      (.str ((alistLookup (pyUpper cs) icons).getD
        (dictGetDefault icons tv DEFAULT_UNKNOWN_AIRCRAFT_ICON)))) := by
  simp [resolveIcon, attr, hc, ht, valUpper]

/-- The instance dict of a constructed `PRDMessage`, before the icon is set:
defaults applied, then extension attributes attached. -/
def prdBody (kwargs : Bindings) : Obj :=
  setExtras (setDefaults prdNew kwargs prd_fields).1 (setDefaults prdNew kwargs prd_fields).2

theorem prdBody_field (kwargs : Bindings) (f : String) (hf : f ∈ prd_fields) :
    alistLookup f (prdBody kwargs).dict =
      some ((alistLookup f kwargs).getD (fieldDefault f)) :=
  setExtras_inst_pres _ _ _ _
    (setDefaults_inst_mem prd_fields prdNew kwargs f hf prd_fields_nodup)

theorem prdBody_getattr_field (kwargs : Bindings) (f : String) (hf : f ∈ prd_fields) :
    getattr (prdBody kwargs) f = some ((alistLookup f kwargs).getD (fieldDefault f)) :=
  getattr_of_inst _ _ _ (prdBody_field kwargs f hf)

theorem prdBody_cls (kwargs : Bindings) : (prdBody kwargs).cls = prdClassAttrs := by
  simp only [prdBody]
  rw [setExtras_cls, setDefaults_cls]
  rfl

/-- A successful `PRDMessage.__init__` forces the callsign to be a string and
yields exactly `prdBody` with the resolved icon written on top. -/
theorem prdInit_cases (icons : IconTable) (kwargs : Bindings) (prd : Obj)
    (h : PRDMessage_init icons kwargs = .ok prd) :
    ∃ cs : String,
      (alistLookup "callsign" kwargs).getD (.str "ABC123") = .str cs ∧
      prd = setattr (prdBody kwargs) "icon"
        (.str ((alistLookup (pyUpper cs) icons).getD
          (dictGetDefault icons ((alistLookup "type" kwargs).getD (.str "Unknown"))
            DEFAULT_UNKNOWN_AIRCRAFT_ICON))) := by
  have hc : getattr (prdBody kwargs) "callsign" =
      some ((alistLookup "callsign" kwargs).getD (.str "ABC123")) := by
    rw [prdBody_getattr_field kwargs "callsign" (by decide), fieldDefault_callsign]
  have ht : getattr (prdBody kwargs) "type" =
      some ((alistLookup "type" kwargs).getD (.str "Unknown")) := by
    rw [prdBody_getattr_field kwargs "type" (by decide), fieldDefault_type]
  have hinit : PRDMessage_init icons kwargs = resolveIcon icons (prdBody kwargs) := rfl
  rw [hinit] at h
  cases hcv : (alistLookup "callsign" kwargs).getD (Value.str "ABC123") with
  | str cs =>
    refine ⟨cs, rfl, ?_⟩
    rw [hcv] at hc
    rw [resolveIcon_eq icons _ cs _ hc ht] at h
    exact (Except.ok.inj h).symm
  | num q =>
    rw [hcv] at hc
    simp [resolveIcon, attr, hc, ht, valUpper] at h
  | meth n =>
    rw [hcv] at hc
    simp [resolveIcon, attr, hc, ht, valUpper] at h

/-- Full description of a successfully constructed `PRDMessage`. -/
theorem prd_desc (icons : IconTable) (kwargs : Bindings) (prd : Obj)
    (h : PRDMessage_init icons kwargs = .ok prd) :
    prd.cls = prdClassAttrs ∧
    (∀ f, f ∈ prd_fields →
      alistLookup f prd.dict = some ((alistLookup f kwargs).getD (fieldDefault f))) ∧
    ∃ cs : String,
      (alistLookup "callsign" kwargs).getD (.str "ABC123") = .str cs ∧
      alistLookup "icon" prd.dict =
        some (.str ((alistLookup (pyUpper cs) icons).getD
          (dictGetDefault icons ((alistLookup "type" kwargs).getD (.str "Unknown"))
            DEFAULT_UNKNOWN_AIRCRAFT_ICON))) := by
  obtain ⟨cs, hcv, hprd⟩ := prdInit_cases icons kwargs prd h
  subst hprd
  refine ⟨?_, ?_, cs, hcv, ?_⟩
  · rw [setattr_cls, prdBody_cls]
  · intro f hf
    have hf2 := hf
    simp only [prd_fields, List.mem_cons, List.not_mem_nil, or_false] at hf2
    rcases hf2 with rfl | rfl | rfl | rfl | rfl | rfl | rfl <;>
      (rw [inst_setattr_ne _ _ _ _ (by decide)]; exact prdBody_field kwargs _ (by decide))
  · exact inst_setattr_same _ _ _

theorem to_dict_eq (prd : Obj) (cv ty la lo al sp he ic : Value)
    (h1 : getattr prd "callsign" = some cv) (h2 : getattr prd "type" = some ty)
    (h3 : getattr prd "latitude" = some la) (h4 : getattr prd "longitude" = some lo)
    (h5 : getattr prd "altitude" = some al) (h6 : getattr prd "speed" = some sp)
    (h7 : getattr prd "heading" = some he) (h8 : getattr prd "icon" = some ic) :
    PRDMessage_to_dict prd = .ok [("callsign", cv), ("type", ty), ("latitude", la),
      ("longitude", lo), ("altitude", al), ("speed", sp), ("heading", he), ("icon", ic)] := by
  simp [PRDMessage_to_dict, attr, h1, h2, h3, h4, h5, h6, h7, h8]

/-- Running `ADSBMessage.__init__` on a fully keyed kwargs dict (what
`to_dict` produces): the seven base fields are copied, the `icon` kwarg is
ignored (it collides with the class attribute) and the icon is re-resolved
from callsign/type; the tail-number branches of lines 165-168 leave the
object unchanged. -/
theorem ADSBMessage_init_full (icons : IconTable) (cs : String) (ty la lo al sp he ic : Value) :
    ADSBMessage_init icons [("callsign", .str cs), ("type", ty), ("latitude", la),
      ("longitude", lo), ("altitude", al), ("speed", sp), ("heading", he), ("icon", ic)] =
    .ok { dict := [("callsign", .str cs), ("type", ty), ("latitude", la),
                   ("longitude", lo), ("altitude", al), ("speed", sp), ("heading", he),
                   ("icon", .str ((alistLookup (pyUpper cs) icons).getD
                     (dictGetDefault icons ty DEFAULT_UNKNOWN_AIRCRAFT_ICON)))],
           cls := adsbClassAttrs } := by
  simp +decide only [ADSBMessage_init, init_objects, prd_fields, setDefaults, setExtras,
    resolveIcon, tailUpdate, attr, getattr, hasattr, setattr, setB, popB, alistLookup,
    valUpper, adsbNew, adsbClassAttrs, memStr, dictAttrNames, ite_true, ite_false,
    Option.getD_some, Option.getD_none, Option.isSome]

/-- Explicit result of `convert_prd_to_adsb` on any constructed `PRDMessage`. -/
theorem convert_explicit (icons : IconTable) (kwargs : Bindings) (prd : Obj)
    (h : PRDMessage_init icons kwargs = .ok prd) :
    ∃ cs : String,
      (alistLookup "callsign" kwargs).getD (.str "ABC123") = .str cs ∧
      convert_prd_to_adsb icons prd =
        .ok { dict := [("callsign", .str cs),
                       ("type", (alistLookup "type" kwargs).getD (.str "Unknown")),
                       ("latitude", (alistLookup "latitude" kwargs).getD (.num 0)),
                       ("longitude", (alistLookup "longitude" kwargs).getD (.num 0)),
                       ("altitude", (alistLookup "altitude" kwargs).getD (.num 0)),
                       ("speed", (alistLookup "speed" kwargs).getD (.num 0)),
                       ("heading", (alistLookup "heading" kwargs).getD (.num 0)),
                       ("icon", .str ((alistLookup (pyUpper cs) icons).getD
                         (dictGetDefault icons ((alistLookup "type" kwargs).getD (.str "Unknown"))
                           DEFAULT_UNKNOWN_AIRCRAFT_ICON)))],
              cls := adsbClassAttrs } := by
  obtain ⟨hcls, hfields, cs, hcv, hicon⟩ := prd_desc icons kwargs prd h
  refine ⟨cs, hcv, ?_⟩
  have hgc : getattr prd "callsign" = some (.str cs) := by
    have := getattr_of_inst _ _ _ (hfields "callsign" (by decide))
    rw [fieldDefault_callsign, hcv] at this
    exact this
  have hgt : getattr prd "type" = some ((alistLookup "type" kwargs).getD (.str "Unknown")) := by
    have := getattr_of_inst _ _ _ (hfields "type" (by decide))
    rw [fieldDefault_type] at this
    exact this
  have hgla : getattr prd "latitude" = some ((alistLookup "latitude" kwargs).getD (.num 0)) := by
    have := getattr_of_inst _ _ _ (hfields "latitude" (by decide))
    rw [fieldDefault_num "latitude" (by decide) (by decide)] at this
    exact this
  have hglo : getattr prd "longitude" = some ((alistLookup "longitude" kwargs).getD (.num 0)) := by
    have := getattr_of_inst _ _ _ (hfields "longitude" (by decide))
    rw [fieldDefault_num "longitude" (by decide) (by decide)] at this
    exact this
  have hgal : getattr prd "altitude" = some ((alistLookup "altitude" kwargs).getD (.num 0)) := by
    have := getattr_of_inst _ _ _ (hfields "altitude" (by decide))
    rw [fieldDefault_num "altitude" (by decide) (by decide)] at this
    exact this
  have hgsp : getattr prd "speed" = some ((alistLookup "speed" kwargs).getD (.num 0)) := by
    have := getattr_of_inst _ _ _ (hfields "speed" (by decide))
    rw [fieldDefault_num "speed" (by decide) (by decide)] at this
    exact this
  have hghe : getattr prd "heading" = some ((alistLookup "heading" kwargs).getD (.num 0)) := by
    have := getattr_of_inst _ _ _ (hfields "heading" (by decide))
    rw [fieldDefault_num "heading" (by decide) (by decide)] at this
    exact this
  have hgic : getattr prd "icon" =
      some (.str ((alistLookup (pyUpper cs) icons).getD
        (dictGetDefault icons ((alistLookup "type" kwargs).getD (.str "Unknown"))
          DEFAULT_UNKNOWN_AIRCRAFT_ICON))) := getattr_of_inst _ _ _ hicon
  have hdict := to_dict_eq prd _ _ _ _ _ _ _ _ hgc hgt hgla hglo hgal hgsp hghe hgic
  simp only [convert_prd_to_adsb, hdict]
  exact ADSBMessage_init_full icons cs _ _ _ _ _ _ _

/-! ### Claim theorems -/

/-- Claim C1, counterexample: the claim says a buffer shorter than the minimum
layout makes `decode` fail with `MalformedMessage` and produce no partial
PositionReport.  The empty buffer — shorter than any layout that could carry
seven fields — decodes successfully to a fully populated default report. -/
theorem claim1_counterexample :
    isOkB (PRDMessage_from_bytes [] []) = true ∧
    PRDMessage_from_bytes [] [] = Except.ok prdDefaultObj := by decide

/-- Claim C1 as amended: `PRDMessage.from_bytes` performs no validation at
all; for every input buffer (of any length, any table) it succeeds and
returns `PRDMessage()`, the default report — it never signals an error. -/
theorem claim1_from_bytes_never_fails (icons : IconTable) (data : List Nat) :
    isOkB (PRDMessage_from_bytes icons data) = true ∧
    PRDMessage_from_bytes icons data = PRDMessage_init icons [] := ⟨rfl, rfl⟩

/-- Claim C2: for every successfully constructed `PRDMessage`,
`convert_prd_to_adsb` is total — it returns an `ADSBMessage` and never
signals an error. -/
theorem claim2_normalize_total (icons : IconTable) (kwargs : Bindings) (prd : Obj)
    (h : PRDMessage_init icons kwargs = Except.ok prd) :
    ∃ adsb : Obj, convert_prd_to_adsb icons prd = Except.ok adsb := by
  obtain ⟨cs, hcv, hconv⟩ := convert_explicit icons kwargs prd h
  exact ⟨_, hconv⟩

/-- Witness for C2 at a concrete input. -/
theorem claim2_witness :
    PRDMessage_init [] [] = Except.ok prdDefaultObj ∧
    ∃ adsb : Obj, convert_prd_to_adsb [] prdDefaultObj = Except.ok adsb :=
  ⟨by decide, claim2_normalize_total [] [] prdDefaultObj (by decide)⟩

/-- Claim C3, counterexample: the claim asserts that a callsign match and a
type match both "lose to the default" icon.  With the default callsign
`"ABC123"` present in the table (and type `"Unknown"` absent), the resolved
icon is the callsign's mapped icon, not the default — a callsign match does
not lose to the default. -/
theorem claim3_counterexample :
    attrOf "icon" (run_pipeline c3table []) = some (.str "icons/abc.svg") ∧
    Value.str "icons/abc.svg" ≠ Value.str DEFAULT_UNKNOWN_AIRCRAFT_ICON := by decide

/-- Claim C3 as amended: `normalize` resolves the icon by first looking up
the uppercased callsign in the table, then, if absent, the aircraft type
string, and only when both lookups miss does it use the default
unknown-aircraft icon (callsign beats type, both beat the default); when the
table's backing source is absent the table is empty and the resolved icon is
the default. -/
theorem claim3_icon_resolution (icons : IconTable) (kwargs : Bindings) (prd adsb : Obj)
    (cs : String) (tv : Value)
    (h1 : PRDMessage_init icons kwargs = Except.ok prd)
    (h2 : convert_prd_to_adsb icons prd = Except.ok adsb)
    (hcs : getattr prd "callsign" = some (Value.str cs))
    (htv : getattr prd "type" = some tv) :
    getattr adsb "icon" = some (.str ((alistLookup (pyUpper cs) icons).getD
      ((dictGetOpt icons tv).getD DEFAULT_UNKNOWN_AIRCRAFT_ICON))) ∧
    (icons = [] → getattr adsb "icon" = some (.str DEFAULT_UNKNOWN_AIRCRAFT_ICON)) := by
  obtain ⟨cs2, hcv2, hconv⟩ := convert_explicit icons kwargs prd h1
  obtain ⟨hcls, hfields, cs3, hcv3, hicon⟩ := prd_desc icons kwargs prd h1
  have hgc : getattr prd "callsign" =
      some ((alistLookup "callsign" kwargs).getD (.str "ABC123")) := by
    have := getattr_of_inst _ _ _ (hfields "callsign" (by decide))
    rw [fieldDefault_callsign] at this; exact this
  have hgt : getattr prd "type" =
      some ((alistLookup "type" kwargs).getD (.str "Unknown")) := by
    have := getattr_of_inst _ _ _ (hfields "type" (by decide))
    rw [fieldDefault_type] at this; exact this
  have hcseq : cs2 = cs := by
    have h' := hgc.symm.trans hcs
    rw [hcv2] at h'
    exact Value.str.inj (Option.some.inj h')
  have htveq : (alistLookup "type" kwargs).getD (.str "Unknown") = tv := by
    have h' := hgt.symm.trans htv
    exact Option.some.inj h'
  have hadsb := Except.ok.inj (h2.symm.trans hconv)
  have hic : getattr adsb "icon" =
      some (.str ((alistLookup (pyUpper cs2) icons).getD
        (dictGetDefault icons ((alistLookup "type" kwargs).getD (.str "Unknown"))
          DEFAULT_UNKNOWN_AIRCRAFT_ICON))) := by
    rw [hadsb]; rfl
  rw [hcseq, htveq] at hic
  constructor
  · simp only [hic, dictGetDefault]
  · intro hempty
    subst hempty
    rw [hic]
    cases tv <;> simp [alistLookup, dictGetDefault, dictGetOpt]

/-- Witness for C3 (amended) at the table `{"ABC123": "icons/abc.svg"}`. -/
theorem claim3_witness :
    (PRDMessage_init c3table [] = Except.ok c3prdObj ∧
     convert_prd_to_adsb c3table c3prdObj = Except.ok c3adsbObj ∧
     getattr c3prdObj "callsign" = some (Value.str "ABC123") ∧
     getattr c3prdObj "type" = some (Value.str "Unknown")) ∧
    (getattr c3adsbObj "icon" = some (.str ((alistLookup (pyUpper "ABC123") c3table).getD
      ((dictGetOpt c3table (Value.str "Unknown")).getD DEFAULT_UNKNOWN_AIRCRAFT_ICON))) ∧
     (c3table = [] → getattr c3adsbObj "icon" = some (.str DEFAULT_UNKNOWN_AIRCRAFT_ICON))) :=
  ⟨⟨by decide, by decide, by decide, by decide⟩,
   claim3_icon_resolution c3table [] c3prdObj c3adsbObj "ABC123" (Value.str "Unknown")
     (by decide) (by decide) (by decide) (by decide)⟩

/-- Claim C4, code-bug evidence: a tail number `"N12345"` supplied as an
extension field, with `"N12345"` mapped in the icon table, does not override
the icon: the pipeline output keeps the callsign/type/default resolution
(here the default) and its `tail_number` attribute reads `""`, because
`hasattr(callsign_icons, tail.upper())` queries the dict object's attributes
(never an uppercased string), `to_dict` drops extension fields, and the
class attribute `tail_number = ""` makes the constructor ignore the kwarg. -/
theorem claim4_bug_eval :
    attrOf "icon" (run_pipeline c4table c4kwargs) =
      some (.str DEFAULT_UNKNOWN_AIRCRAFT_ICON) ∧
    attrOf "tail_number" (run_pipeline c4table c4kwargs) = some (.str "") ∧
    Value.str DEFAULT_UNKNOWN_AIRCRAFT_ICON ≠ Value.str "icons/tail.svg" := by decide

/-- Claim C5, code-bug evidence: on the spec's concrete scenario (no tail
number supplied), the produced `ADSBMessage` has `tail_number` equal to the
class attribute `""`, not the sentinel `"N/A"`: the guard
`if not hasattr(self, 'tail_number')` is always false because of the
class-level `tail_number = ""`.  The rest of the scenario behaves as
specified (icon `"icons/ual.svg"`, callsign copied). -/
theorem claim5_bug_eval :
    attrOf "tail_number" (run_pipeline c5table c5kwargs) = some (.str "") ∧
    some (Value.str "") ≠ some (Value.str "N/A") ∧
    attrOf "icon" (run_pipeline c5table c5kwargs) = some (.str "icons/ual.svg") ∧
    attrOf "callsign" (run_pipeline c5table c5kwargs) = some (.str "UAL123") := by decide

/-- Claim C6: the `ADSBMessage` produced by `convert_prd_to_adsb` carries the
seven base fields verbatim, each equal to the corresponding attribute of the
input `PRDMessage`. -/
theorem claim6_fields_verbatim (icons : IconTable) (kwargs : Bindings) (prd adsb : Obj)
    (h1 : PRDMessage_init icons kwargs = Except.ok prd)
    (h2 : convert_prd_to_adsb icons prd = Except.ok adsb) :
    getattr adsb "callsign" = getattr prd "callsign" ∧
    getattr adsb "type" = getattr prd "type" ∧
    getattr adsb "latitude" = getattr prd "latitude" ∧
    getattr adsb "longitude" = getattr prd "longitude" ∧
    getattr adsb "altitude" = getattr prd "altitude" ∧
    getattr adsb "speed" = getattr prd "speed" ∧
    getattr adsb "heading" = getattr prd "heading" := by
  obtain ⟨cs, hcv, hconv⟩ := convert_explicit icons kwargs prd h1
  obtain ⟨hcls, hfields, cs3, hcv3, hicon⟩ := prd_desc icons kwargs prd h1
  have hadsb := Except.ok.inj (h2.symm.trans hconv)
  subst hadsb
  have hgc := getattr_of_inst _ _ _ (hfields "callsign" (by decide))
  rw [fieldDefault_callsign, hcv] at hgc
  have hgt := getattr_of_inst _ _ _ (hfields "type" (by decide))
  rw [fieldDefault_type] at hgt
  have hgla := getattr_of_inst _ _ _ (hfields "latitude" (by decide))
  rw [fieldDefault_num "latitude" (by decide) (by decide)] at hgla
  have hglo := getattr_of_inst _ _ _ (hfields "longitude" (by decide))
  rw [fieldDefault_num "longitude" (by decide) (by decide)] at hglo
  have hgal := getattr_of_inst _ _ _ (hfields "altitude" (by decide))
  rw [fieldDefault_num "altitude" (by decide) (by decide)] at hgal
  have hgsp := getattr_of_inst _ _ _ (hfields "speed" (by decide))
  rw [fieldDefault_num "speed" (by decide) (by decide)] at hgsp
  have hghe := getattr_of_inst _ _ _ (hfields "heading" (by decide))
  rw [fieldDefault_num "heading" (by decide) (by decide)] at hghe
  exact ⟨by rw [hgc]; rfl, by rw [hgt]; rfl, by rw [hgla]; rfl, by rw [hglo]; rfl,
         by rw [hgal]; rfl, by rw [hgsp]; rfl, by rw [hghe]; rfl⟩

/-- Witness for C6 at a concrete input. -/
theorem claim6_witness :
    (PRDMessage_init [] [] = Except.ok prdDefaultObj ∧
     convert_prd_to_adsb [] prdDefaultObj = Except.ok adsbDefaultObj) ∧
    (getattr adsbDefaultObj "callsign" = getattr prdDefaultObj "callsign" ∧
     getattr adsbDefaultObj "type" = getattr prdDefaultObj "type" ∧
     getattr adsbDefaultObj "latitude" = getattr prdDefaultObj "latitude" ∧
     getattr adsbDefaultObj "longitude" = getattr prdDefaultObj "longitude" ∧
     getattr adsbDefaultObj "altitude" = getattr prdDefaultObj "altitude" ∧
     getattr adsbDefaultObj "speed" = getattr prdDefaultObj "speed" ∧
     getattr adsbDefaultObj "heading" = getattr prdDefaultObj "heading") :=
  ⟨⟨by decide, by decide⟩,
   claim6_fields_verbatim [] [] prdDefaultObj adsbDefaultObj (by decide) (by decide)⟩

/-- Claim C7: `PRDMessage.from_bytes` returns the identical default-valued
report for every input buffer — callsign `"ABC123"`, type `"Unknown"`, and
all five numeric fields `0.0` — so the decoded result is independent of the
bytes received. -/
theorem claim7_decode_constant (icons : IconTable) (data : List Nat) :
    PRDMessage_from_bytes icons data = PRDMessage_from_bytes icons [] ∧
    attrOf "callsign" (PRDMessage_from_bytes icons data) = some (.str "ABC123") ∧
    attrOf "type" (PRDMessage_from_bytes icons data) = some (.str "Unknown") ∧
    attrOf "latitude" (PRDMessage_from_bytes icons data) = some (.num 0) ∧
    attrOf "longitude" (PRDMessage_from_bytes icons data) = some (.num 0) ∧
    attrOf "altitude" (PRDMessage_from_bytes icons data) = some (.num 0) ∧
    attrOf "speed" (PRDMessage_from_bytes icons data) = some (.num 0) ∧
    attrOf "heading" (PRDMessage_from_bytes icons data) = some (.num 0) :=
  ⟨rfl, rfl, rfl, rfl, rfl, rfl, rfl, rfl⟩

/-- Claim C8: every successfully constructed `PRDMessage` (the decoder's
output always goes through this constructor with empty kwargs) has all seven
base fields present in its instance dict; the five numeric fields default to
`0.0` and the type to `"Unknown"` exactly when absent from the input. -/
theorem claim8_fields_present (icons : IconTable) (kwargs : Bindings) (prd : Obj)
    (h : PRDMessage_init icons kwargs = Except.ok prd) :
    ((alistLookup "callsign" prd.dict).isSome = true ∧
     (alistLookup "type" prd.dict).isSome = true ∧
     (alistLookup "latitude" prd.dict).isSome = true ∧
     (alistLookup "longitude" prd.dict).isSome = true ∧
     (alistLookup "altitude" prd.dict).isSome = true ∧
     (alistLookup "speed" prd.dict).isSome = true ∧
     (alistLookup "heading" prd.dict).isSome = true) ∧
    (alistLookup "type" kwargs = none →
      alistLookup "type" prd.dict = some (.str "Unknown")) ∧
    (alistLookup "latitude" kwargs = none →
      alistLookup "latitude" prd.dict = some (.num 0)) ∧
    (alistLookup "longitude" kwargs = none →
      alistLookup "longitude" prd.dict = some (.num 0)) ∧
    (alistLookup "altitude" kwargs = none →
      alistLookup "altitude" prd.dict = some (.num 0)) ∧
    (alistLookup "speed" kwargs = none →
      alistLookup "speed" prd.dict = some (.num 0)) ∧
    (alistLookup "heading" kwargs = none →
      alistLookup "heading" prd.dict = some (.num 0)) := by
  obtain ⟨hcls, hfields, cs, hcv, hicon⟩ := prd_desc icons kwargs prd h
  refine ⟨⟨?_, ?_, ?_, ?_, ?_, ?_, ?_⟩, ?_, ?_, ?_, ?_, ?_, ?_⟩
  · rw [hfields "callsign" (by decide)]; rfl
  · rw [hfields "type" (by decide)]; rfl
  · rw [hfields "latitude" (by decide)]; rfl
  · rw [hfields "longitude" (by decide)]; rfl
  · rw [hfields "altitude" (by decide)]; rfl
  · rw [hfields "speed" (by decide)]; rfl
  · rw [hfields "heading" (by decide)]; rfl
  · intro h0
    rw [hfields "type" (by decide), h0, Option.getD_none, fieldDefault_type]
  · intro h0
    rw [hfields "latitude" (by decide), h0, Option.getD_none,
      fieldDefault_num "latitude" (by decide) (by decide)]
  · intro h0
    rw [hfields "longitude" (by decide), h0, Option.getD_none,
      fieldDefault_num "longitude" (by decide) (by decide)]
  · intro h0
    rw [hfields "altitude" (by decide), h0, Option.getD_none,
      fieldDefault_num "altitude" (by decide) (by decide)]
  · intro h0
    rw [hfields "speed" (by decide), h0, Option.getD_none,
      fieldDefault_num "speed" (by decide) (by decide)]
  · intro h0
    rw [hfields "heading" (by decide), h0, Option.getD_none,
      fieldDefault_num "heading" (by decide) (by decide)]

/-- Witness for C8: `PRDMessage(callsign="X")` with an empty table. -/
theorem claim8_witness :
    PRDMessage_init [] [("callsign", Value.str "X")] = Except.ok c8prdObj ∧
    (((alistLookup "callsign" c8prdObj.dict).isSome = true ∧
      (alistLookup "type" c8prdObj.dict).isSome = true ∧
      (alistLookup "latitude" c8prdObj.dict).isSome = true ∧
      (alistLookup "longitude" c8prdObj.dict).isSome = true ∧
      (alistLookup "altitude" c8prdObj.dict).isSome = true ∧
      (alistLookup "speed" c8prdObj.dict).isSome = true ∧
      (alistLookup "heading" c8prdObj.dict).isSome = true) ∧
     (alistLookup "type" [("callsign", Value.str "X")] = none →
       alistLookup "type" c8prdObj.dict = some (.str "Unknown")) ∧
     (alistLookup "latitude" [("callsign", Value.str "X")] = none →
       alistLookup "latitude" c8prdObj.dict = some (.num 0)) ∧
     (alistLookup "longitude" [("callsign", Value.str "X")] = none →
       alistLookup "longitude" c8prdObj.dict = some (.num 0)) ∧
     (alistLookup "altitude" [("callsign", Value.str "X")] = none →
       alistLookup "altitude" c8prdObj.dict = some (.num 0)) ∧
     (alistLookup "speed" [("callsign", Value.str "X")] = none →
       alistLookup "speed" c8prdObj.dict = some (.num 0)) ∧
     (alistLookup "heading" [("callsign", Value.str "X")] = none →
       alistLookup "heading" c8prdObj.dict = some (.num 0))) :=
  ⟨by decide,
   claim8_fields_present [] [("callsign", Value.str "X")] c8prdObj (by decide)⟩

/-- Claim C9: `convert_prd_to_adsb` is deterministic — two runs on the same
table and the same `PRDMessage` yield identical results (the embedding has
no hidden state: the result is a function of the two inputs alone). -/
theorem claim9_deterministic (icons : IconTable) (prd : Obj) (r1 r2 : Except PyErr Obj)
    (h1 : convert_prd_to_adsb icons prd = r1)
    (h2 : convert_prd_to_adsb icons prd = r2) : r1 = r2 :=
  h1.symm.trans h2

/-- Witness for C9 at a concrete input. -/
theorem claim9_witness :
    (convert_prd_to_adsb [] prdDefaultObj = Except.ok adsbDefaultObj ∧
     convert_prd_to_adsb [] prdDefaultObj = Except.ok adsbDefaultObj) ∧
    (Except.ok adsbDefaultObj : Except PyErr Obj) = Except.ok adsbDefaultObj :=
  ⟨⟨by decide, by decide⟩,
   claim9_deterministic [] prdDefaultObj _ _ (by decide) (by decide)⟩

/-- Claim C10: the extras loop shared by both constructors (lines 43-45 of
`init_objects`) attaches a kwarg only when no attribute of that name is
already present on the object; a colliding key is silently ignored and the
existing attribute value is left unchanged by the loop. -/
theorem claim10_extras (o : Obj) (kw : Bindings) (k : String) (v : Value)
    (hnd : (kw.map Prod.fst).Nodup) (hmem : (k, v) ∈ kw) :
    (hasattr o k = true → getattr (setExtras o kw) k = getattr o k) ∧
    (hasattr o k = false → getattr (setExtras o kw) k = some v) := by
  revert hnd hmem
  induction kw generalizing o with
  | nil => intro hnd hmem; cases hmem
  | cons p kw ih =>
    intro hnd hmem
    obtain ⟨k2, v2⟩ := p
    simp only [List.map_cons] at hnd
    obtain ⟨hk2notin, hnd2⟩ := List.nodup_cons.mp hnd
    rcases List.mem_cons.mp hmem with heq | hmem2
    · injection heq with e1 e2
      subst e1; subst e2
      have huntouched : ∀ p ∈ kw, p.1 ≠ k := by
        intro p hp he
        exact hk2notin (he ▸ List.mem_map_of_mem Prod.fst hp)
      constructor
      · intro htrue
        simp only [setExtras]
        rw [if_pos htrue]
        exact setExtras_untouched kw o k huntouched
      · intro hfalse
        simp only [setExtras]
        rw [if_neg (by rw [hfalse]; exact Bool.false_ne_true)]
        rw [setExtras_untouched kw _ k huntouched, getattr_setattr_same]
    · have hkk2 : k ≠ k2 := by
        rintro rfl
        exact hk2notin (List.mem_map_of_mem Prod.fst hmem2)
      simp only [setExtras]
      by_cases hk2 : hasattr o k2 = true
      · rw [if_pos hk2]; exact ih o hnd2 hmem2
      · rw [if_neg hk2]
        have hrec := ih (setattr o k2 v2) hnd2 hmem2
        constructor
        · intro htrue
          have h' := hrec.1 (by rw [hasattr_setattr_ne o k k2 v2 hkk2]; exact htrue)
          rw [h', getattr_setattr_ne o k k2 v2 hkk2]
        · intro hfalse
          exact hrec.2 (by rw [hasattr_setattr_ne o k k2 v2 hkk2]; exact hfalse)

/-- Witness for C10: a fresh extension key is attached; a key colliding with
the class attribute `icon` is ignored by the loop. -/
theorem claim10_witness :
    (([("foo", Value.num 1)] : Bindings).map Prod.fst).Nodup ∧
    ("foo", Value.num 1) ∈ ([("foo", Value.num 1)] : Bindings) ∧
    ((hasattr adsbNew "foo" = true →
        getattr (setExtras adsbNew [("foo", Value.num 1)]) "foo" = getattr adsbNew "foo") ∧
     (hasattr adsbNew "foo" = false →
        getattr (setExtras adsbNew [("foo", Value.num 1)]) "foo" = some (Value.num 1))) :=
  ⟨by decide, by decide,
   claim10_extras adsbNew [("foo", Value.num 1)] "foo" (Value.num 1) (by decide) (by decide)⟩

end PrdAdsb
